import Mathlib

/-!
# Verification of the JSCAD execution-and-mesh-compilation pipeline

Shallow embedding of the core pipeline of this repository:

* the Sandbox Executor (`executeJSCAD`): sandbox `require` resolution,
  entry-point (`main`) extraction from `module.exports` / `exports`, and the
  top-level error behaviour of the conversion pipeline;
* the Mesh Compiler (`convertToThreeGeometry`): per-polygon normal derivation,
  fan triangulation, post-pass index validation, the `EmptyMeshError` path;
* the Fallback Generator (`createFallbackGeometry`): the fixed cuboid mesh and
  the normals produced by three.js `computeVertexNormals` on its non-indexed
  vertex buffer.

Modelling conventions:

* JavaScript numbers are idealised as exact rationals (`ℚ`).  `Math.sqrt` is
  modelled by `ratSqrt`, a rational floor square root; every square root
  actually taken in the theorems below is of a perfect square of a rational
  (0, 1, 10000), where `ratSqrt` agrees exactly with the real (and the
  IEEE-754) square root.
* A BRep solid is taken directly as its list of polygons: the source obtains
  the polygon list via the external library call
  `jscad.geometries.geom3.toPolygons`, which is the identity on the stored
  polygon array of a `geom3`.
* `computeBoundingBox` / `computeBoundingSphere` mutate auxiliary fields of the
  three.js geometry object and never alter the position/normal/index buffers;
  no claim concerns the bounding volume, so those fields are not modelled.
* `console.log` / `console.warn` / `console.error` are pure diagnostics with no
  effect on the produced data and are not modelled.
-/

/-- A 3-D point / vector with rational coordinates (a JS `[x, y, z]` array). -/
structure Vec3 where
  x : ℚ
  y : ℚ
  z : ℚ
deriving DecidableEq, Repr

instance : Inhabited Vec3 := ⟨⟨0, 0, 0⟩⟩

/-- Componentwise difference, as in `[v2[0]-v1[0], v2[1]-v1[1], v2[2]-v1[2]]`. -/
def vsub (a b : Vec3) : Vec3 := ⟨a.x - b.x, a.y - b.y, a.z - b.z⟩

/-- The cross product as written in `convertToThreeGeometry`
(`a[1]*b[2] - a[2]*b[1]`, …). -/
def vcross (a b : Vec3) : Vec3 :=
  ⟨a.y * b.z - a.z * b.y, a.z * b.x - a.x * b.z, a.x * b.y - a.y * b.x⟩

/-- Dot product, used for squared lengths. -/
def vdot (a b : Vec3) : ℚ := a.x * b.x + a.y * b.y + a.z * b.z

/-- Newton iteration for the floor square root: from `guess`, step to
`(guess + n / guess) / 2` while strictly decreasing; structurally recursive on
a fuel argument so that it evaluates by reduction. -/
def natSqrtGo (n : Nat) : Nat → Nat → Nat
  | guess, 0 => guess
  | guess, fuel + 1 =>
    let next := (guess + n / guess) / 2
    if next < guess then natSqrtGo n next fuel else guess

/-- Floor square root on `ℕ` (Newton's method, starting from `n` with fuel
`n`, which far exceeds the iterations needed); on a perfect square it returns
the exact root. -/
def natSqrt (n : Nat) : Nat := if n ≤ 1 then n else natSqrtGo n n n

/-- Square root on `ℚ`, taken on the numerator and the denominator; on a
perfect square of a rational it is exact. -/
def ratSqrt (q : ℚ) : ℚ := (natSqrt q.num.toNat : ℚ) / (natSqrt q.den : ℚ)

/-- `Math.sqrt(n[0]*n[0] + n[1]*n[1] + n[2]*n[2])`, idealised over `ℚ`. -/
def vlength (a : Vec3) : ℚ := ratSqrt (vdot a a)

/-- Scalar multiple, used for `[n[0]/len, n[1]/len, n[2]/len]`. -/
def vscale (s : ℚ) (a : Vec3) : Vec3 := ⟨s * a.x, s * a.y, s * a.z⟩

/-- Flatten a vector to the three floats pushed into a JS buffer. -/
def coords (a : Vec3) : List ℚ := [a.x, a.y, a.z]

/-- A JSCAD polygon: its `vertices` array and, optionally, the unit normal of
its stored `plane` (the source tests `polygon.plane && polygon.plane.normal`,
so only the normal component of the plane is relevant). -/
structure Polygon where
  vertices : List Vec3
  plane : Option Vec3
deriving DecidableEq, Repr

/-- A BRep solid: the unordered collection of polygons of a `geom3`. -/
abbrev BRepSolid := List Polygon

/-- The data of a three.js `BufferGeometry` as produced by this pipeline:
`position` attribute, `normal` attribute, and the optional index buffer. -/
structure Mesh where
  positions : List ℚ
  normals : List ℚ
  indices : Option (List Nat)
deriving DecidableEq, Repr

/-! ## Mesh Compiler (`convertToThreeGeometry`) -/

/-- The normal chosen for one polygon.  The source initialises
`let normal = [0, 0, 1] // Default normal`, but that value is unconditionally
overwritten: either the stored plane normal is taken, or the (normalised, when
its length is positive) cross product of the two edge vectors from the first
vertex.  In particular, when the cross product is the zero vector the
normalisation guard `if (length > 0)` is skipped and the zero vector itself —
not the `[0, 0, 1]` default — is kept. -/
def polygonNormal (p : Polygon) : Vec3 :=
  match p.plane with
  | some n => n
  | none =>
    let v1 := p.vertices.getD 0 default
    let v2 := p.vertices.getD 1 default
    let v3 := p.vertices.getD 2 default
    let a := vsub v2 v1
    let b := vsub v3 v1
    let n := vcross a b
    let len := vlength n
    if 0 < len then vscale (1 / len) n else n

/-- The mutable state of the compilation loop: the `vertices`, `normals` and
`indices` arrays plus the running `vertexIndex` counter. -/
structure Accum where
  vertices : List ℚ
  normals : List ℚ
  indices : List Nat
  vertexIndex : Nat
deriving DecidableEq, Repr

def Accum.empty : Accum := ⟨[], [], [], 0⟩

/-- One iteration of the fan-triangulation loop body: push the three vertex
positions, the face normal three times, and the indices
`vertexIndex, vertexIndex+1, vertexIndex+2`; then advance `vertexIndex` by 3. -/
def pushTriangle (acc : Accum) (v0 v1 v2 n : Vec3) : Accum :=
  { vertices := acc.vertices ++ (coords v0 ++ (coords v1 ++ coords v2))
    normals := acc.normals ++ (coords n ++ (coords n ++ coords n))
    indices := acc.indices ++ [acc.vertexIndex, acc.vertexIndex + 1, acc.vertexIndex + 2]
    vertexIndex := acc.vertexIndex + 3 }

/-- Processing of one polygon: polygons with fewer than 3 vertices are skipped
(`continue`), otherwise the fan-triangulation loop
`for (let i = 1; i < polyVertices.length - 1; i++)` runs, i.e. `i` ranges over
`[1, …, polyVertices.length - 2]`. -/
def processPolygon (acc : Accum) (p : Polygon) : Accum :=
  if p.vertices.length < 3 then acc
  else
    let n := polygonNormal p
    (List.range' 1 (p.vertices.length - 2)).foldl
      (fun a i =>
        pushTriangle a (p.vertices.getD 0 default) (p.vertices.getD i default)
          (p.vertices.getD (i + 1) default) n)
      acc

/-- The two exceptions thrown inside the `try` block of
`convertToThreeGeometry`: `'No valid vertices generated from JSCAD geometry'`
(the spec's `EmptyMeshError`) and the post-construction
`'Generated geometry has no vertices'` check. -/
inductive CompileError
  | emptyMesh
  | emptyGeometry
deriving DecidableEq, Repr

/-- The body of `convertToThreeGeometry`'s `try` block: run the loop over all
polygons, throw when the accumulated vertex buffer is empty, filter the index
buffer to entries `≤ vertices.length / 3 - 1`, attach the index buffer only
when the filtered list is non-empty with length a multiple of 3, and finally
re-check that the position attribute is non-empty. -/
def convertCore (polys : BRepSolid) : Except CompileError Mesh :=
  let acc := polys.foldl processPolygon Accum.empty
  if acc.vertices.length = 0 then .error .emptyMesh
  else
    let maxIndex := acc.vertices.length / 3 - 1
    let validIndices := acc.indices.filter (fun idx => idx ≤ maxIndex)
    let mesh : Mesh :=
      { positions := acc.vertices
        normals := acc.normals
        indices :=
          if 0 < validIndices.length ∧ validIndices.length % 3 = 0 then some validIndices
          else none }
    if mesh.positions.length / 3 = 0 then .error .emptyGeometry else .ok mesh

/-! ## Fallback Generator (`createFallbackGeometry`) -/

/-- The cuboid half-edge, `const size = 5`. -/
def cubeSize : ℚ := 5

/-- The 108-float vertex buffer literal of `createFallbackGeometry`:
36 vertices, 12 triangles, 2 per cuboid face, in the order front, back, top,
bottom, right, left. -/
def fallbackVertices : List ℚ :=
  [-cubeSize, -cubeSize, cubeSize, cubeSize, -cubeSize, cubeSize, cubeSize, cubeSize, cubeSize,
   -cubeSize, -cubeSize, cubeSize, cubeSize, cubeSize, cubeSize, -cubeSize, cubeSize, cubeSize,
   -cubeSize, -cubeSize, -cubeSize, -cubeSize, cubeSize, -cubeSize, cubeSize, cubeSize, -cubeSize,
   -cubeSize, -cubeSize, -cubeSize, cubeSize, cubeSize, -cubeSize, cubeSize, -cubeSize, -cubeSize,
   -cubeSize, cubeSize, -cubeSize, -cubeSize, cubeSize, cubeSize, cubeSize, cubeSize, cubeSize,
   -cubeSize, cubeSize, -cubeSize, cubeSize, cubeSize, cubeSize, cubeSize, cubeSize, -cubeSize,
   -cubeSize, -cubeSize, -cubeSize, cubeSize, -cubeSize, -cubeSize, cubeSize, -cubeSize, cubeSize,
   -cubeSize, -cubeSize, -cubeSize, cubeSize, -cubeSize, cubeSize, -cubeSize, -cubeSize, cubeSize,
   cubeSize, -cubeSize, -cubeSize, cubeSize, cubeSize, -cubeSize, cubeSize, cubeSize, cubeSize,
   cubeSize, -cubeSize, -cubeSize, cubeSize, cubeSize, cubeSize, cubeSize, -cubeSize, cubeSize,
   -cubeSize, -cubeSize, -cubeSize, -cubeSize, -cubeSize, cubeSize, -cubeSize, cubeSize, cubeSize,
   -cubeSize, -cubeSize, -cubeSize, -cubeSize, cubeSize, cubeSize, -cubeSize, cubeSize, -cubeSize]

/-- Regroup a flat float buffer into `Vec3`s (three.js
`Vector3.fromBufferAttribute`); a trailing fragment shorter than 3 is dropped
(never hit here: every buffer length in play is a multiple of 3). -/
def toVec3List : List ℚ → List Vec3
  | x :: y :: z :: rest => ⟨x, y, z⟩ :: toVec3List rest
  | _ => []

/-- three.js `Vector3.normalize`: `divideScalar(this.length() || 1)` — a
zero-length vector is divided by 1, i.e. left unchanged. -/
def jsNormalize (v : Vec3) : Vec3 :=
  let len := vlength v
  if len = 0 then v else vscale (1 / len) v

/-- The non-indexed branch of three.js `BufferGeometry.computeVertexNormals`:
for each triple of vertices `pA, pB, pC`, the face normal
`(pC - pB) × (pA - pB)` is assigned to all three vertices.  Vertices are not
shared across triangles in a non-indexed buffer, so no averaging across
adjacent faces ever occurs. -/
def faceNormalsNonIndexed : List Vec3 → List Vec3
  | pA :: pB :: pC :: rest =>
    let cb := vsub pC pB
    let ab := vsub pA pB
    let n := vcross cb ab
    n :: n :: n :: faceNormalsNonIndexed rest
  | _ => []

/-- three.js `computeVertexNormals` on a non-indexed geometry followed by
`normalizeNormals`, flattened back into a float buffer. -/
def computeVertexNormals (positions : List ℚ) : List ℚ :=
  ((faceNormalsNonIndexed (toVec3List positions)).map jsNormalize).flatMap coords

/-- `createFallbackGeometry`: the fixed cuboid mesh.  It sets only the position
attribute (no index buffer) and calls `computeVertexNormals` for the normal
attribute.  Being a closed total definition, it is pure, deterministic,
parameterless and never fails. -/
def createFallbackGeometry : Mesh :=
  { positions := fallbackVertices
    normals := computeVertexNormals fallbackVertices
    indices := none }

/-- `convertToThreeGeometry` as seen by its caller: the `catch` block returns
the fallback cuboid geometry on any exception from the `try` body. -/
def convertToThreeGeometry (polys : BRepSolid) : Mesh :=
  match convertCore polys with
  | .ok m => m
  | .error _ => createFallbackGeometry

/-! ## Sandbox Executor (`executeJSCAD`): module resolution -/

/-- A JavaScript value reachable by walking properties of the imported
`@jscad/modeling` object: the module object and its nested namespace objects
(`ns`), exported functions (`fnLeaf`), and `undefined` for absent
properties. -/
inductive RVal where
  | undefined
  | ns (children : List (String × RVal))
  | fnLeaf
deriving Repr

/-- JavaScript `String.prototype.startsWith`, written over character lists so
that it evaluates by reduction. -/
def listPrefixOf : List Char → List Char → Bool
  | [], _ => true
  | _, [] => false
  | a :: as, b :: bs => a == b && listPrefixOf as bs

/-- JS `p.startsWith(s)` counterpart: `strStartsWith p s` is true when `p` is
a prefix of `s`. -/
def strStartsWith (p s : String) : Bool := listPrefixOf p.data s.data

/-- Accumulator pass of JavaScript `String.prototype.split` on a single
separator character. -/
def splitAux (c : Char) : List Char → List Char → List (List Char)
  | [], cur => [cur.reverse]
  | a :: as, cur =>
    if a == c then cur.reverse :: splitAux c as [] else splitAux c as (a :: cur)

/-- JS `s.split(c)`: splits on every occurrence of `c`, keeping empty parts
(`'a/'.split('/')` is `['a', '']`), written over character lists so that it
evaluates by reduction. -/
def strSplit (s : String) (c : Char) : List String :=
  (splitAux c s.data []).map String.mk

/-- The two failure modes of `sandbox.require`: the explicit
`` throw new Error(`Module ${moduleName} not found`) `` and the implicit
JavaScript `TypeError` raised when a property of `undefined` is read. -/
inductive ReqError
  | moduleNotFound
  | typeError
deriving DecidableEq, Repr

/-- JavaScript property read `obj[key]`: reading on `undefined` throws a
`TypeError`; a missing key on an object yields `undefined`; a function is an
object whose (absent) properties read as `undefined`. -/
def rget : RVal → String → Except ReqError RVal
  | .undefined, _ => .error .typeError
  | .ns cs, k => .ok (((cs.find? (fun c => c.1 = k)).map Prod.snd).getD .undefined)
  | .fnLeaf, _ => .ok .undefined

/-- The loop `for (let i = 2; i < parts.length; i++) obj = obj[parts[i]]`. -/
def walkPath : RVal → List String → Except ReqError RVal
  | v, [] => .ok v
  | v, k :: ks =>
    match rget v k with
    | .ok v2 => walkPath v2 ks
    | .error e => .error e

/-- A representative model of the external `@jscad/modeling` module object:
it declares the library's top-level sub-namespaces; `sandbox.require`'s logic
does not depend on the exact contents, only on which keys exist. -/
def jscadModel : RVal :=
  .ns
    [("booleans", .ns [("intersect", .fnLeaf), ("subtract", .fnLeaf), ("union", .fnLeaf)]),
     ("colors", .ns [("colorize", .fnLeaf)]),
     ("extrusions", .ns [("extrudeLinear", .fnLeaf)]),
     ("geometries", .ns [("geom2", .ns [("create", .fnLeaf)]),
                         ("geom3", .ns [("create", .fnLeaf), ("toPolygons", .fnLeaf)]),
                         ("path2", .ns [("create", .fnLeaf)])]),
     ("primitives", .ns [("cube", .fnLeaf), ("cuboid", .fnLeaf), ("cylinder", .fnLeaf),
                         ("sphere", .fnLeaf)]),
     ("transforms", .ns [("rotate", .fnLeaf), ("scale", .fnLeaf), ("translate", .fnLeaf)])]

/-- `sandbox.require`: the exact identifier `@jscad/modeling` returns the
module object; an identifier starting with `@jscad/modeling/` is split on `/`
and resolved by property walk from index 2 on; any other identifier throws the
module-not-found error. -/
def sandboxRequire (root : RVal) (moduleName : String) : Except ReqError RVal :=
  if moduleName = "@jscad/modeling" then .ok root
  else if strStartsWith "@jscad/modeling/" moduleName then
    walkPath root ((strSplit moduleName '/').drop 2)
  else .error .moduleNotFound

/-! ## Sandbox Executor: entry-point extraction and pipeline -/

/-- The JavaScript value found under the key `main` on `module.exports` or
`exports` after the program ran.  A callable (`fn`) carries the BRep solid its
invocation returns, since `main` takes no arguments. -/
inductive JSValue where
  | undefined
  | jsNull
  | bool (b : Bool)
  | num (q : ℚ)
  | str (s : String)
  | fn (result : BRepSolid)
  | obj
deriving DecidableEq, Repr

/-- JavaScript truthiness (`undefined`, `null`, `false`, `0`, `""` are falsy;
functions and objects are truthy; `NaN` has no rational counterpart). -/
def truthy : JSValue → Bool
  | .undefined => false
  | .jsNull => false
  | .bool b => b
  | .num q => q ≠ 0
  | .str s => s ≠ ""
  | .fn _ => true
  | .obj => true

/-- `typeof v === 'function'`. -/
def isCallable : JSValue → Bool
  | .fn _ => true
  | _ => false

/-- The error `'No main function found in JSCAD code'` — the spec's
`EntryPointMissingError`. -/
inductive ExecError
  | entryPointMissing
deriving DecidableEq, Repr

/-- Lines 30–36 of the executor:
`const mainFunc = module.exports.main || exports.main` selects
`module.exports.main` when it is truthy and `exports.main` otherwise; if the
selected value is not a function the executor throws, otherwise it invokes it
and obtains the BRep solid. -/
def getMainResult (moduleExportsMain exportsMain : JSValue) : Except ExecError BRepSolid :=
  let mainFunc := if truthy moduleExportsMain then moduleExportsMain else exportsMain
  match mainFunc with
  | .fn solid => .ok solid
  | _ => .error .entryPointMissing

/-- `executeJSCAD` from entry-point extraction on: on success the solid is
compiled by `convertToThreeGeometry`; the surrounding
`catch (error) { …; throw error }` re-throws every executor-stage error to the
caller — it does not resolve to the fallback geometry.  The program evaluation
itself is abstracted by the pair of values bound under `main` on
`module.exports` and `exports` when evaluation finished (for the program
`module.exports = {}` both are `undefined`). -/
def runPipeline (moduleExportsMain exportsMain : JSValue) : Except ExecError Mesh :=
  match getMainResult moduleExportsMain exportsMain with
  | .ok solid => .ok (convertToThreeGeometry solid)
  | .error e => .error e

/-! ## Concrete test inputs and expected values -/

/-- The unit square of the spec's concrete scenario:
(0,0,0), (1,0,0), (1,1,0), (0,1,0), with no stored plane normal. -/
def unitSquare : Polygon :=
  ⟨[⟨0, 0, 0⟩, ⟨1, 0, 0⟩, ⟨1, 1, 0⟩, ⟨0, 1, 0⟩], none⟩

/-- Three collinear points on the x-axis, no stored plane normal: the cross
product of the two edge vectors is exactly the zero vector. -/
def collinearTri : Polygon :=
  ⟨[⟨0, 0, 0⟩, ⟨1, 0, 0⟩, ⟨2, 0, 0⟩], none⟩

/-- A degenerate two-point polygon. -/
def degenPoly : Polygon :=
  ⟨[⟨0, 0, 0⟩, ⟨1, 1, 1⟩], none⟩

/-- A demonstration BRep solid returned by a callable `main`. -/
def demoSolid : BRepSolid := [unitSquare]

/-- The mesh the compiler produces from `[unitSquare]`. -/
def squareMesh : Mesh :=
  { positions := [0, 0, 0, 1, 0, 0, 1, 1, 0, 0, 0, 0, 1, 1, 0, 0, 1, 0]
    normals := [0, 0, 1, 0, 0, 1, 0, 0, 1, 0, 0, 1, 0, 0, 1, 0, 0, 1]
    indices := some [0, 1, 2, 3, 4, 5] }

/-- The per-face unit normals of the fallback cuboid's 36 vertices: each of
the 12 triangles carries its face normal on all 3 vertices, faces in the order
front, back, top, bottom, right, left. -/
def expectedFallbackNormals : List Vec3 :=
  List.replicate 6 ⟨0, 0, 1⟩ ++ List.replicate 6 ⟨0, 0, -1⟩ ++
  List.replicate 6 ⟨0, 1, 0⟩ ++ List.replicate 6 ⟨0, -1, 0⟩ ++
  List.replicate 6 ⟨1, 0, 0⟩ ++ List.replicate 6 ⟨-1, 0, 0⟩

/-- The `primitives` sub-namespace of `jscadModel`. -/
def primitivesNS : RVal :=
  .ns [("cube", .fnLeaf), ("cuboid", .fnLeaf), ("cylinder", .fnLeaf), ("sphere", .fnLeaf)]

/-- The loop invariant of the compilation state: the vertex and normal buffers
have equal length, three floats are stored per counted vertex, the index
buffer is exactly `[0, 1, …, vertexIndex - 1]`, and vertices arrive in groups
of three (one triangle at a time). -/
def AccInv (a : Accum) : Prop :=
  a.vertices.length = a.normals.length ∧
  a.vertices.length = 3 * a.vertexIndex ∧
  a.indices = List.range a.vertexIndex ∧
  a.vertexIndex % 3 = 0

/-! ## Helper lemmas -/

lemma range_add_three (n : ℕ) : List.range (n + 3) = List.range n ++ [n, n + 1, n + 2] := by
  have h3 : List.range 3 = [0, 1, 2] := rfl
  rw [List.range_add, h3]
  simp

lemma accInv_empty : AccInv Accum.empty := by
  refine ⟨rfl, rfl, rfl, rfl⟩

lemma accInv_push (a : Accum) (v0 v1 v2 n : Vec3) (h : AccInv a) :
    AccInv (pushTriangle a v0 v1 v2 n) := by
  obtain ⟨h1, h2, h3, h4⟩ := h
  refine ⟨?_, ?_, ?_, ?_⟩
  · simp [pushTriangle, coords, h1]
  · simp [pushTriangle, coords]
    omega
  · simp [pushTriangle, h3, range_add_three]
  · simp [pushTriangle]
    omega

lemma accInv_foldl_push (v0 nrm : Vec3) (f : ℕ → Vec3) :
    ∀ (l : List ℕ) (acc : Accum), AccInv acc →
      AccInv (l.foldl (fun a i => pushTriangle a v0 (f i) (f (i + 1)) nrm) acc)
  | [], _, h => h
  | i :: l, acc, h =>
    accInv_foldl_push v0 nrm f l _ (accInv_push acc v0 (f i) (f (i + 1)) nrm h)

lemma accInv_processPolygon (acc : Accum) (p : Polygon) (h : AccInv acc) :
    AccInv (processPolygon acc p) := by
  unfold processPolygon
  split
  · exact h
  · exact accInv_foldl_push (p.vertices.getD 0 default) (polygonNormal p)
      (fun i => p.vertices.getD i default) _ acc h

lemma accInv_foldl_polys :
    ∀ (polys : List Polygon) (acc : Accum), AccInv acc →
      AccInv (polys.foldl processPolygon acc)
  | [], _, h => h
  | p :: polys, acc, h =>
    accInv_foldl_polys polys _ (accInv_processPolygon acc p h)

lemma convertCore_ok_shape (polys : BRepSolid) (m : Mesh) (h : convertCore polys = .ok m) :
    ∃ T, 0 < T ∧ m.positions.length = 9 * T ∧ m.normals.length = 9 * T ∧
      m.indices = some (List.range (3 * T)) := by
  obtain ⟨h1, h2, h3, h4⟩ := accInv_foldl_polys polys Accum.empty accInv_empty
  set acc := polys.foldl processPolygon Accum.empty with hacc
  simp only [convertCore, ← hacc] at h
  by_cases hz : acc.vertices.length = 0
  · rw [if_pos hz] at h
    exact absurd h (by simp)
  · rw [if_neg hz] at h
    have hfilter : (acc.indices.filter fun idx => idx ≤ acc.vertices.length / 3 - 1)
        = acc.indices := by
      rw [List.filter_eq_self]
      intro i hi
      rw [h3] at hi
      have hmem := List.mem_range.mp hi
      simp only [decide_eq_true_eq]
      omega
    rw [hfilter, h3] at h
    have hlen : (List.range acc.vertexIndex).length = acc.vertexIndex := List.length_range _
    have hcond : 0 < (List.range acc.vertexIndex).length ∧
        (List.range acc.vertexIndex).length % 3 = 0 := by
      rw [hlen]
      omega
    rw [if_pos hcond] at h
    have hpos : ¬ acc.vertices.length / 3 = 0 := by omega
    rw [if_neg hpos] at h
    have hm := Except.ok.inj h
    obtain ⟨t, ht⟩ : ∃ t, acc.vertexIndex = 3 * t := ⟨acc.vertexIndex / 3, by omega⟩
    refine ⟨t, by omega, ?_, ?_, ?_⟩
    · rw [← hm]
      show acc.vertices.length = 9 * t
      omega
    · rw [← hm]
      show acc.normals.length = 9 * t
      omega
    · rw [← hm]
      show some (List.range acc.vertexIndex) = some (List.range (3 * t))
      rw [ht]

lemma filter_indices_noop (polys : BRepSolid) :
    ((polys.foldl processPolygon Accum.empty).indices.filter fun idx =>
        idx ≤ (polys.foldl processPolygon Accum.empty).vertices.length / 3 - 1)
      = (polys.foldl processPolygon Accum.empty).indices := by
  obtain ⟨h1, h2, h3, h4⟩ := accInv_foldl_polys polys Accum.empty accInv_empty
  rw [List.filter_eq_self]
  intro i hi
  rw [h3] at hi
  have hmem := List.mem_range.mp hi
  simp only [decide_eq_true_eq]
  omega

lemma foldl_push_vertices (v0 nrm : Vec3) (f : ℕ → Vec3) :
    ∀ (l : List ℕ) (acc : Accum),
      (l.foldl (fun a i => pushTriangle a v0 (f i) (f (i + 1)) nrm) acc).vertices
        = acc.vertices ++ (l.map fun i => coords v0 ++ (coords (f i) ++ coords (f (i + 1)))).flatten
  | [], acc => by simp
  | i :: l, acc => by
    rw [List.foldl_cons, foldl_push_vertices v0 nrm f l]
    simp [pushTriangle]

lemma foldl_push_indices_length (v0 nrm : Vec3) (f : ℕ → Vec3) :
    ∀ (l : List ℕ) (acc : Accum),
      (l.foldl (fun a i => pushTriangle a v0 (f i) (f (i + 1)) nrm) acc).indices.length
        = acc.indices.length + 3 * l.length
  | [], acc => by simp
  | i :: l, acc => by
    rw [List.foldl_cons, foldl_push_indices_length v0 nrm f l]
    simp [pushTriangle]
    omega

lemma foldl_degenerate :
    ∀ (polys : List Polygon) (acc : Accum), (∀ p ∈ polys, p.vertices.length < 3) →
      polys.foldl processPolygon acc = acc
  | [], _, _ => rfl
  | p :: polys, acc, h => by
    rw [List.foldl_cons]
    have hp : processPolygon acc p = acc := by
      unfold processPolygon
      rw [if_pos (h p (List.mem_cons_self p polys))]
    rw [hp]
    exact foldl_degenerate polys acc fun q hq => h q (List.mem_cons_of_mem p hq)

/-! ## Claim theorems -/

/-- Claim C2, counterexample: compiling the single 4-point unit square does
not produce the index buffer `[0, 1, 2, 0, 2, 3]` — vertices are freshly
pushed per triangle, never shared, so the indices are sequential. -/
theorem square_index_buffer_not_shared :
    (convertToThreeGeometry [unitSquare]).indices ≠ some [0, 1, 2, 0, 2, 3] := by
  decide

/-- Claim C2 (amended): compiling the single 4-point convex polygon
(0,0,0), (1,0,0), (1,1,0), (0,1,0) with no stored plane normal yields the face
normal (0,0,1) on all six vertices, exactly 2 triangles, a position buffer of
exactly 18 floats, and the index buffer `[0, 1, 2, 3, 4, 5]` (sequential,
one fresh index per pushed vertex), not `[0, 1, 2, 0, 2, 3]`. -/
theorem square_compilation :
    convertToThreeGeometry [unitSquare] = squareMesh ∧
    squareMesh.positions.length = 18 ∧
    squareMesh.indices = some [0, 1, 2, 3, 4, 5] ∧
    toVec3List squareMesh.normals = List.replicate 6 ⟨0, 0, 1⟩ := by
  refine ⟨by with_unfolding_all rfl, by with_unfolding_all rfl, rfl, by with_unfolding_all rfl⟩

/-- Claim C4 (as a code bug): for the polygon with the collinear points
(0,0,0), (1,0,0), (2,0,0) and no stored plane normal, the cross product of the
two edge vectors is exactly the zero vector, the `if (length > 0)`
normalisation guard is skipped, and the compiler emits the zero vector
(0,0,0) for all three vertices of the emitted triangle — not the documented
default normal (0,0,1), which the source initialises
(`let normal = [0, 0, 1] // Default normal`) but then unconditionally
overwrites. -/
theorem collinear_polygon_zero_normal :
    polygonNormal collinearTri = ⟨0, 0, 0⟩ ∧
    (convertToThreeGeometry [collinearTri]).normals = [0, 0, 0, 0, 0, 0, 0, 0, 0] ∧
    (convertToThreeGeometry [collinearTri]).normals ≠
      [0, 0, 1, 0, 0, 1, 0, 0, 1] := by
  refine ⟨by with_unfolding_all rfl, by with_unfolding_all rfl, by with_unfolding_all decide⟩

/-- Claim C9, counterexample: in the fallback cuboid mesh, vertex 0 and
vertex 23 hold the identical position (-5, -5, 5) — a cuboid corner shared by
the front and bottom faces — yet receive different normals ((0,0,1) versus
(0,-1,0)).  Per-vertex normals averaged across adjacent faces would assign
equal normals to equal positions, so the fallback's normals are not smoothed:
the geometry is non-indexed, and `computeVertexNormals` assigns each
triangle's flat face normal to its three vertices. -/
theorem fallback_duplicate_position_distinct_normals :
    (toVec3List createFallbackGeometry.positions).getD 0 default
      = (toVec3List createFallbackGeometry.positions).getD 23 default ∧
    (toVec3List createFallbackGeometry.normals).getD 0 default
      ≠ (toVec3List createFallbackGeometry.normals).getD 23 default := by
  refine ⟨by with_unfolding_all rfl, by with_unfolding_all decide⟩

/-- Claim C9 (amended): the Fallback Generator is a pure, deterministic,
parameterless function (a closed total definition) that always produces the
same fixed cuboid mesh: a non-empty position buffer of 108 floats whose every
coordinate is ±5 (constant edge length 10), no index buffer, and — because the
buffer is non-indexed, so no vertex is shared between faces — per-face flat
unit normals (each triangle's face normal repeated on its three vertices),
not normals averaged across adjacent faces. -/
theorem fallback_fixed_cuboid_flat_normals :
    createFallbackGeometry.positions.length = 108 ∧
    createFallbackGeometry.positions ≠ [] ∧
    (∀ q ∈ createFallbackGeometry.positions, q = 5 ∨ q = -5) ∧
    createFallbackGeometry.indices = none ∧
    toVec3List createFallbackGeometry.normals = expectedFallbackNormals := by
  refine ⟨by with_unfolding_all rfl, by with_unfolding_all decide, by with_unfolding_all decide,
    rfl, by with_unfolding_all rfl⟩

lemma walkPath_ne_moduleNotFound (ks : List String) :
    ∀ v : RVal, walkPath v ks ≠ .error .moduleNotFound := by
  induction ks with
  | nil => intro v h; exact Except.noConfusion h
  | cons k ks ih =>
    intro v
    show (match rget v k with
      | .ok v2 => walkPath v2 ks
      | .error e => .error e) ≠ .error .moduleNotFound
    cases v with
    | undefined => intro h; exact ReqError.noConfusion (Except.error.inj h)
    | ns cs => exact ih _
    | fnLeaf => exact ih _

/-- Claim C3, counterexample: the identifier `@jscad/modeling/nonexistent`
names no declared sub-namespace, yet `sandbox.require` resolves it
successfully to `undefined` (the property walk reads a missing key off the
module object) instead of failing with `ModuleNotFoundError`. -/
theorem require_unknown_subnamespace_resolves :
    sandboxRequire jscadModel "@jscad/modeling/nonexistent" = .ok .undefined ∧
    sandboxRequire jscadModel "@jscad/modeling/nonexistent" ≠ .error .moduleNotFound := by
  constructor
  · rfl
  · intro h
    have h2 : (Except.ok RVal.undefined : Except ReqError RVal) = .error .moduleNotFound := h
    exact Except.noConfusion h2

/-- Claim C3 (amended): `sandbox.require` fails with `ModuleNotFoundError`
for exactly the identifiers that are neither the root namespace
`@jscad/modeling` nor prefixed by `@jscad/modeling/`.  The root identifier
resolves to the module object and a declared sub-namespace path (e.g.
`@jscad/modeling/primitives`) resolves to that namespace, but an identifier
under the root prefix that names no existing sub-namespace does not fail with
`ModuleNotFoundError`: the property walk yields `undefined` (or raises a
`TypeError` when walking deeper below a missing name). -/
theorem require_moduleNotFound_iff (name : String) :
    (sandboxRequire jscadModel name = .error .moduleNotFound ↔
      ¬(name = "@jscad/modeling" ∨ strStartsWith "@jscad/modeling/" name = true)) ∧
    sandboxRequire jscadModel "@jscad/modeling" = .ok jscadModel ∧
    sandboxRequire jscadModel "@jscad/modeling/primitives" = .ok primitivesNS := by
  refine ⟨?_, rfl, rfl⟩
  unfold sandboxRequire
  by_cases h1 : name = "@jscad/modeling"
  · rw [if_pos h1]
    simp [h1]
  · rw [if_neg h1]
    by_cases h2 : strStartsWith "@jscad/modeling/" name = true
    · rw [if_pos h2]
      simp only [h1, h2, or_true, not_true_eq_false, iff_false]
      exact walkPath_ne_moduleNotFound _ _
    · rw [if_neg h2]
      simp [h1, h2]

lemma getMainResult_error_of_not_callable (m e : JSValue)
    (h : isCallable (if truthy m then m else e) = false) :
    getMainResult m e = .error .entryPointMissing := by
  unfold getMainResult
  cases hsel : (if truthy m then m else e) <;> simp_all [isCallable]

/-- Claim C5, counterexample: with `module.exports.main` bound to the truthy
non-callable value `1` and `exports.main` bound to a callable, the selection
`module.exports.main || exports.main` picks the non-callable value and the
executor throws `EntryPointMissingError`, even though one of the two bindings
is callable — refuting "fails if and only if neither binding is callable". -/
theorem truthy_noncallable_main_shadows_callable :
    getMainResult (.num 1) (.fn demoSolid) = .error .entryPointMissing ∧
    isCallable (JSValue.fn demoSolid) = true := by
  exact ⟨by with_unfolding_all rfl, rfl⟩

/-- Claim C5 (amended): the executor fails with `EntryPointMissingError` if
and only if the value selected by `module.exports.main || exports.main`
(namely `module.exports.main` when truthy, `exports.main` otherwise) is not
callable; whenever the selected value is callable it is invoked and its solid
is returned.  A truthy non-callable `module.exports.main` therefore shadows a
callable `exports.main`. -/
theorem getMain_fails_iff (moduleExportsMain exportsMain : JSValue) :
    (getMainResult moduleExportsMain exportsMain = .error .entryPointMissing ↔
      isCallable (if truthy moduleExportsMain then moduleExportsMain else exportsMain) = false) ∧
    (∀ s : BRepSolid,
      (if truthy moduleExportsMain then moduleExportsMain else exportsMain) = .fn s →
        getMainResult moduleExportsMain exportsMain = .ok s) := by
  unfold getMainResult
  constructor
  · cases h : (if truthy moduleExportsMain then moduleExportsMain else exportsMain) <;>
      simp [isCallable]
  · intro s hs
    rw [hs]

/-- Witness for `getMain_fails_iff`: a callable `module.exports.main` is
selected and invoked. -/
theorem getMain_fails_iff_witness :
    getMainResult (.fn demoSolid) .undefined = .ok demoSolid :=
  (getMain_fails_iff (.fn demoSolid) .undefined).2 demoSolid rfl

/-- Claim C1, counterexample: for the program `module.exports = {}` (both
`module.exports.main` and `exports.main` are `undefined`), the full conversion
pipeline (`executeJSCAD`) throws `EntryPointMissingError` outward — its
`catch` block re-throws — and does not return the Fallback Generator's cuboid
mesh. -/
theorem no_main_pipeline_throws :
    runPipeline .undefined .undefined = .error .entryPointMissing ∧
    runPipeline .undefined .undefined ≠ .ok createFallbackGeometry := by
  constructor
  · rfl
  · intro h
    have h2 : (Except.error ExecError.entryPointMissing : Except ExecError Mesh)
        = .ok createFallbackGeometry := h
    exact Except.noConfusion h2

/-- Claim C1 (amended): when no callable `main` is selected, the Sandbox
Executor fails with `EntryPointMissingError` and the top-level conversion
pipeline propagates that error outward to its caller (`executeJSCAD`'s catch
re-throws); the Fallback Generator's cuboid mesh is returned only when the
Mesh Compiler itself fails internally — for example a callable `main`
returning an empty solid resolves to the fallback cuboid. -/
theorem pipeline_entry_error_propagates (moduleExportsMain exportsMain : JSValue)
    (h : isCallable (if truthy moduleExportsMain then moduleExportsMain else exportsMain)
      = false) :
    runPipeline moduleExportsMain exportsMain = .error .entryPointMissing ∧
    runPipeline (.fn []) .undefined = .ok createFallbackGeometry := by
  constructor
  · unfold runPipeline
    rw [getMainResult_error_of_not_callable moduleExportsMain exportsMain h]
  · rfl

/-- Witness for `pipeline_entry_error_propagates`: a truthy, non-callable
exports object. -/
theorem pipeline_entry_error_propagates_witness :
    isCallable (if truthy JSValue.obj then JSValue.obj else JSValue.undefined) = false ∧
    runPipeline JSValue.obj JSValue.undefined = .error .entryPointMissing :=
  ⟨rfl, (pipeline_entry_error_propagates JSValue.obj JSValue.undefined rfl).1⟩

/-- Claim C6: for every BRep solid, the mesh produced on success (the non-throwing
path of `convertToThreeGeometry`, i.e. `convertCore`) has position and normal
buffers of equal length, and its index buffer is absent or has length
divisible by 3 with every entry strictly below the vertex count
(`positions.length / 3`).  Convexity plays no role in the buffer bookkeeping,
so the property is proved for all solids, which includes all solids composed
only of convex polygons. -/
theorem mesh_buffer_invariants (polys : BRepSolid) (m : Mesh)
    (h : convertCore polys = .ok m) :
    m.positions.length = m.normals.length ∧
    (m.indices = none ∨ ∃ l, m.indices = some l ∧ l.length % 3 = 0 ∧
      ∀ i ∈ l, i < m.positions.length / 3) := by
  obtain ⟨T, hT, hp, hn, hi⟩ := convertCore_ok_shape polys m h
  refine ⟨by omega, Or.inr ⟨List.range (3 * T), hi, ?_, ?_⟩⟩
  · rw [List.length_range]
    omega
  · intro i hmem
    have := List.mem_range.mp hmem
    omega

/-- Witness for `mesh_buffer_invariants` at the unit square. -/
theorem mesh_buffer_invariants_witness :
    convertCore [unitSquare] = .ok squareMesh ∧
    (squareMesh.positions.length = squareMesh.normals.length ∧
      (squareMesh.indices = none ∨ ∃ l, squareMesh.indices = some l ∧ l.length % 3 = 0 ∧
        ∀ i ∈ l, i < squareMesh.positions.length / 3)) :=
  ⟨by with_unfolding_all rfl,
    mesh_buffer_invariants [unitSquare] squareMesh (by with_unfolding_all rfl)⟩

/-- Claim C7: a polygon with N points yields exactly max(0, N−2) fan
triangles — the loop body runs once per `i ∈ [1, …, N−2]` and a polygon with
fewer than 3 points is skipped (contributing zero triangles, with no error
possible: `processPolygon` is total) — and the emitted triangle vertices are
exactly (point 0, point i, point i+1) for each such i. -/
theorem fan_triangulation_count_and_shape (p : Polygon) :
    ((processPolygon Accum.empty p).indices.length : ℤ)
        = 3 * max 0 ((p.vertices.length : ℤ) - 2) ∧
    (processPolygon Accum.empty p).vertices
      = ((List.range' 1 (p.vertices.length - 2)).map fun i =>
          coords (p.vertices.getD 0 default) ++
            (coords (p.vertices.getD i default) ++
              coords (p.vertices.getD (i + 1) default))).flatten := by
  constructor
  · by_cases hd : p.vertices.length < 3
    · simp only [processPolygon, if_pos hd]
      show ((Accum.empty.indices.length : ℕ) : ℤ) = _
      simp only [Accum.empty, List.length_nil]
      omega
    · simp only [processPolygon, if_neg hd]
      rw [foldl_push_indices_length]
      simp only [Accum.empty, List.length_nil, List.length_range']
      omega
  · by_cases hd : p.vertices.length < 3
    · simp only [processPolygon, if_pos hd]
      have h2 : p.vertices.length - 2 = 0 := by omega
      rw [h2]
      rfl
    · simp only [processPolygon, if_neg hd]
      rw [foldl_push_vertices]
      rfl

/-- Claim C8: a BRep solid whose polygons all have fewer than 3 points (which
includes the empty solid) accumulates an empty position buffer, so the
compiler throws `EmptyMeshError` and the conversion resolves to the Fallback
Generator's non-empty fixed cuboid mesh; moreover for every input whatsoever
the conversion never returns a mesh with an empty position buffer. -/
theorem degenerate_solid_falls_back (polys : BRepSolid)
    (h : ∀ p ∈ polys, p.vertices.length < 3) :
    convertCore polys = .error .emptyMesh ∧
    convertToThreeGeometry polys = createFallbackGeometry ∧
    createFallbackGeometry.positions.length = 108 ∧
    ∀ ps : BRepSolid, (convertToThreeGeometry ps).positions.length ≠ 0 := by
  have hfold := foldl_degenerate polys Accum.empty h
  have hcore : convertCore polys = .error .emptyMesh := by
    simp only [convertCore]
    rw [hfold]
    rfl
  refine ⟨hcore, ?_, rfl, ?_⟩
  · unfold convertToThreeGeometry
    rw [hcore]
  · intro ps
    unfold convertToThreeGeometry
    cases hc : convertCore ps with
    | error e =>
      show createFallbackGeometry.positions.length ≠ 0
      decide
    | ok m =>
      obtain ⟨T, hT, hp, _, _⟩ := convertCore_ok_shape ps m hc
      show m.positions.length ≠ 0
      omega

/-- Witness for `degenerate_solid_falls_back` at a one-polygon solid whose
polygon has only 2 points. -/
theorem degenerate_solid_falls_back_witness :
    (∀ p ∈ [degenPoly], p.vertices.length < 3) ∧
    (convertCore [degenPoly] = .error .emptyMesh ∧
      convertToThreeGeometry [degenPoly] = createFallbackGeometry ∧
      createFallbackGeometry.positions.length = 108 ∧
      ∀ ps : BRepSolid, (convertToThreeGeometry ps).positions.length ≠ 0) :=
  ⟨by decide, degenerate_solid_falls_back [degenPoly] (by decide)⟩

/-- Claim C10: every index the triangulation loop appends is below the final
vertex count, so the post-pass filter
`indices.filter(idx => idx <= maxIndex)` removes no entries, and on every
successful (non-fallback) compilation the index buffer is present and equal
to `[0, 1, …, vertexCount − 1]` — hence the non-indexed degradation branch is
unreachable on the success path. -/
theorem index_buffer_exact (polys : BRepSolid) (m : Mesh)
    (h : convertCore polys = .ok m) :
    m.indices = some (List.range (m.positions.length / 3)) ∧
    ((polys.foldl processPolygon Accum.empty).indices.filter fun idx =>
        idx ≤ (polys.foldl processPolygon Accum.empty).vertices.length / 3 - 1)
      = (polys.foldl processPolygon Accum.empty).indices := by
  obtain ⟨T, hT, hp, hn, hi⟩ := convertCore_ok_shape polys m h
  refine ⟨?_, filter_indices_noop polys⟩
  have h93 : 9 * T / 3 = 3 * T := by omega
  rw [hi, hp, h93]

/-- Witness for `index_buffer_exact` at the unit square. -/
theorem index_buffer_exact_witness :
    convertCore [unitSquare] = .ok squareMesh ∧
    (squareMesh.indices = some (List.range (squareMesh.positions.length / 3)) ∧
      (([unitSquare].foldl processPolygon Accum.empty).indices.filter fun idx =>
          idx ≤ ([unitSquare].foldl processPolygon Accum.empty).vertices.length / 3 - 1)
        = ([unitSquare].foldl processPolygon Accum.empty).indices) :=
  ⟨by with_unfolding_all rfl,
    index_buffer_exact [unitSquare] squareMesh (by with_unfolding_all rfl)⟩
